import Mathlib

/-
Verification of src/icon-generator.py (LinkedInify icon generator).

The script is embedded shallowly:
  * The imaging library (PIL) is abstracted as an environment `FontEnv`:
    font lookups that may raise an exception return `Option Font` (a `none`
    models a raised exception of any cause, matching the bare `except:`
    clauses), and `textbbox` is an abstract measurement oracle.
  * A PIL image together with the drawing calls performed on it is the
    record `Icon`; the drawing calls are kept as an ordered trace `ops`,
    so that draw order (glyph first, border last) is observable.
  * Python `int(size * 0.4)` is embedded as the exact floor `2 * size / 5`
    (the float product cannot cross an integer boundary for any size in
    the range the script handles), and Python floor division `//` on
    possibly negative integers is `Int.fdiv`.
  * The filesystem is a record `FS` (directory list plus an association
    list of saved files); `generate_all_icons` threads `FS` and the list
    of printed stdout lines, and the environment `Env` can inject
    failures for directory creation, rendering and saving, modelling the
    exceptions those operations can raise at runtime.
-/

/-- A font handle as resolved by the imaging library, abstracted as the
name it was resolved from together with the requested point size. -/
structure Font where
  tag : String
  pointSize : Nat

/-- The imaging-library collaborator visible from create_icon: the two
named font lookups (a `none` result models a raised exception), the
built-in default font, and the text bounding-box measurement
`(left, top, right, bottom)` as returned by `draw.textbbox((0,0), ...)`. -/
structure FontEnv where
  arialTtf : Nat → Option Font
  systemArial : Nat → Option Font
  defaultFont : Font
  textbbox : Font → String → Int × Int × Int × Int

/-- The try/except/except font-fallback chain of create_icon
(src/icon-generator.py lines 24-32): try `arial.ttf`, then the system
Arial path, then `ImageFont.load_default()`. -/
def selectFont (fe : FontEnv) (font_size : Nat) : Font :=
  match fe.arialTtf font_size with
  | some f => f
  | none =>
    match fe.systemArial font_size with
    | some f => f
    | none => fe.defaultFont

/-- One drawing call performed on the image, in call order. -/
inductive DrawOp where
  | text (x y : Int) (s : String) (fill : String) (font : Font)
  | rectangle (x0 y0 x1 y1 : Int) (outline : String) (width : Nat)

/-- A PIL image as produced by create_icon: `Image.new(mode, (w, h), bg)`
plus the ordered trace of drawing calls, plus the point size that the
named font lookups were asked for. -/
structure Icon where
  mode : String
  width : Nat
  height : Nat
  background : String
  fontRequest : Nat
  ops : List DrawOp

/-- Embedding of create_icon (src/icon-generator.py lines 14-50). -/
def create_icon (fe : FontEnv) (size : Nat) : Icon :=
  let text := "📝"
  let font_size := 2 * size / 5
  let font := selectFont fe font_size
  let bbox := fe.textbbox font text
  let text_width := bbox.2.2.1 - bbox.1
  let text_height := bbox.2.2.2 - bbox.2.1
  let x := Int.fdiv ((size : Int) - text_width) 2
  let y := Int.fdiv ((size : Int) - text_height) 2 - bbox.2.1
  let border_width := max 1 (size / 64)
  { mode := "RGB"
    width := size
    height := size
    background := "#0077b5"
    fontRequest := font_size
    ops := [DrawOp.text x y text "white" font,
            DrawOp.rectangle 0 0 ((size : Int) - 1) ((size : Int) - 1) "#005582" border_width] }

/-- A sample environment in which every font lookup succeeds. -/
def sampleFontEnv : FontEnv :=
  { arialTtf := fun n => some ⟨"arial.ttf", n⟩
    systemArial := fun n => some ⟨"/System/Library/Fonts/Arial.ttf", n⟩
    defaultFont := ⟨"load_default", 10⟩
    textbbox := fun _ _ => (0, 2, 20, 24) }

/-- A sample environment in which both named font lookups raise. -/
def noNamedFontEnv : FontEnv :=
  { arialTtf := fun _ => none
    systemArial := fun _ => none
    defaultFont := ⟨"load_default", 10⟩
    textbbox := fun _ _ => (0, 2, 20, 24) }

/-- A raised Python exception: its class (only the two classes the
top-level handlers distinguish) and its message. -/
inductive ExcKind where
  | importError
  | otherError
deriving DecidableEq

/-- An exception value: kind plus rendered message. -/
structure Exc where
  kind : ExcKind
  msg : String

/-- A file as saved on disk: the image object and the format string
passed to `save` (PNG or ICO). -/
structure SavedFile where
  image : Icon
  format : String

/-- The filesystem visible to the script: directories that exist and an
association list of saved files in creation order; `setFile` below gives
it overwrite semantics. -/
structure FS where
  dirs : List String
  files : List (String × SavedFile)

/-- State threaded through the run: the filesystem plus the stdout lines
printed so far. -/
structure St where
  fs : FS
  out : List String

/-- The runtime environment: whether the PIL import succeeds, the font
collaborator, and injectable failures for rendering a given size, saving
to a given path, and creating the directory (each `some msg` models an
exception raised by the imaging library or the OS at that point). -/
structure Env where
  pilAvailable : Bool
  fontEnv : FontEnv
  renderFails : Nat → Option String
  saveFails : String → Option String
  mkdirFails : Option String

/-- Icon sizes required for PWA (src/icon-generator.py line 12). -/
def ICON_SIZES : List Nat := [72, 96, 128, 144, 152, 192, 384, 512]

/-- The output path for one size, embedding the f-string
`icons/icon-SxS.png`. -/
def pngName (size : Nat) : String :=
  "icons/icon-" ++ toString size ++ "x" ++ toString size ++ ".png"

/-- Write a file: overwrite in place when the path already exists,
append otherwise. -/
def setFile (files : List (String × SavedFile)) (p : String) (v : SavedFile) :
    List (String × SavedFile) :=
  match files with
  | [] => [(p, v)]
  | (q, w) :: rest => if q = p then (p, v) :: rest else (q, w) :: setFile rest p v

/-- Embedding of `os.makedirs` on a directory name: raises FileExistsError when the
directory already exists, and the environment may inject an OS failure. -/
def makedirs (env : Env) (fs : FS) (d : String) : Except Exc FS :=
  match env.mkdirFails with
  | some m => Except.error ⟨ExcKind.otherError, m⟩
  | none =>
    if d ∈ fs.dirs then Except.error ⟨ExcKind.otherError, "FileExistsError"⟩
    else Except.ok { fs with dirs := fs.dirs ++ [d] }

/-- Rendering one size: either the environment injects an imaging-library
failure, or the pure create_icon result is returned. -/
def renderIcon (env : Env) (size : Nat) : Except Exc Icon :=
  match env.renderFails size with
  | some m => Except.error ⟨ExcKind.otherError, m⟩
  | none => Except.ok (create_icon env.fontEnv size)

/-- Embedding of `image.save(path, fmt)`: either the environment injects a failure for
this path, or the file is written with overwrite semantics. -/
def saveFile (env : Env) (st : St) (path : String) (img : Icon) (fmt : String) :
    Except Exc St :=
  match env.saveFails path with
  | some m => Except.error ⟨ExcKind.otherError, m⟩
  | none =>
    Except.ok { st with fs := { st.fs with files := setFile st.fs.files path ⟨img, fmt⟩ } }

/-- The `for size in ICON_SIZES` loop body of generate_all_icons
(src/icon-generator.py lines 60-64): render, save, print confirmation;
the first raised exception aborts the rest of the list and returns the
state as it was before the failing iteration touched it. -/
def genLoop (env : Env) (sizes : List Nat) (st : St) : St × Option Exc :=
  match sizes with
  | [] => (st, none)
  | size :: rest =>
    match renderIcon env size with
    | Except.error e => (st, some e)
    | Except.ok icon =>
      match saveFile env st (pngName size) icon "PNG" with
      | Except.error e => (st, some e)
      | Except.ok st1 =>
        genLoop env rest { st1 with out := st1.out ++ ["✅ Created " ++ pngName size] }

/-- Embedding of generate_all_icons (src/icon-generator.py lines 52-75).
Returns the final state and, when an exception escaped, that exception. -/
def generate_all_icons (env : Env) (st0 : St) : St × Option Exc :=
  match (if "icons" ∈ st0.fs.dirs then Except.ok st0.fs else makedirs env st0.fs "icons") with
  | Except.error e => (st0, some e)
  | Except.ok fs1 =>
    let st2 : St := { fs := fs1, out := st0.out ++ ["🎨 Generating LinkedInify icons..."] }
    match genLoop env ICON_SIZES st2 with
    | (st3, some e) => (st3, some e)
    | (st3, none) =>
      match renderIcon env 32 with
      | Except.error e => (st3, some e)
      | Except.ok favicon =>
        match saveFile env st3 "favicon.ico" favicon "ICO" with
        | Except.error e => (st3, some e)
        | Except.ok st4 =>
          ({ st4 with out := st4.out ++
              (["✅ Created favicon.ico", "", "🎉 All icons generated successfully!",
                "", "Generated files:"] ++
               ICON_SIZES.map (fun s => "  - " ++ pngName s) ++ ["  - favicon.ico"]) },
           none)

/-- The `if name == main` block (src/icon-generator.py lines 77-88): run
generate_all_icons inside try/except ImportError/except Exception. -/
def runMain (env : Env) (fs0 : FS) : St :=
  match generate_all_icons env ⟨fs0, []⟩ with
  | (st, none) => st
  | (st, some e) =>
    match e.kind with
    | ExcKind.importError =>
      { st with out := st.out ++
          ["❌ Pillow library not found. Install it with:", "   pip install Pillow"] }
    | ExcKind.otherError =>
      { st with out := st.out ++
          ["❌ Error generating icons: " ++ e.msg,
           "", "Alternative: Use online icon generators like:",
           "  - https://realfavicongenerator.net/",
           "  - https://www.favicon-generator.org/",
           "  - https://favicon.io/"] }

/-- What running the script produced: either the main block finished (its
handlers may have printed), or an exception escaped the whole script. -/
inductive Outcome where
  | finished (st : St)
  | uncaughtExc (e : Exc) (st : St)

/-- Running `python3 icon-generator.py`: the module-level
`from PIL import ...` at line 8 executes before the main block is ever
reached, so a missing PIL raises an ImportError that no handler in the
file encloses; only when the import succeeds does runMain execute. -/
def runScript (env : Env) (fs0 : FS) : Outcome :=
  if env.pilAvailable then Outcome.finished (runMain env fs0)
  else Outcome.uncaughtExc ⟨ExcKind.importError, "No module named PIL"⟩ ⟨fs0, []⟩

/-- A fully healthy runtime environment, for witnesses. -/
def sampleEnv : Env :=
  { pilAvailable := true
    fontEnv := sampleFontEnv
    renderFails := fun _ => none
    saveFails := fun _ => none
    mkdirFails := none }

/-- The environment in which the Pillow import fails. -/
def noPilEnv : Env :=
  { sampleEnv with pilAvailable := false }

/-- The empty working directory the script is normally started in. -/
def emptyFS : FS := ⟨[], []⟩

/-- The nine files a successful run leaves on disk, in write order. -/
def filesList (fe : FontEnv) : List (String × SavedFile) :=
  [(pngName 72, ⟨create_icon fe 72, "PNG"⟩),
   (pngName 96, ⟨create_icon fe 96, "PNG"⟩),
   (pngName 128, ⟨create_icon fe 128, "PNG"⟩),
   (pngName 144, ⟨create_icon fe 144, "PNG"⟩),
   (pngName 152, ⟨create_icon fe 152, "PNG"⟩),
   (pngName 192, ⟨create_icon fe 192, "PNG"⟩),
   (pngName 384, ⟨create_icon fe 384, "PNG"⟩),
   (pngName 512, ⟨create_icon fe 512, "PNG"⟩),
   ("favicon.ico", ⟨create_icon fe 32, "ICO"⟩)]

/-- The stdout lines of a successful run. -/
def successOut : List String :=
  ["🎨 Generating LinkedInify icons...",
   "✅ Created " ++ pngName 72, "✅ Created " ++ pngName 96,
   "✅ Created " ++ pngName 128, "✅ Created " ++ pngName 144,
   "✅ Created " ++ pngName 152, "✅ Created " ++ pngName 192,
   "✅ Created " ++ pngName 384, "✅ Created " ++ pngName 512,
   "✅ Created favicon.ico", "", "🎉 All icons generated successfully!",
   "", "Generated files:",
   "  - " ++ pngName 72, "  - " ++ pngName 96, "  - " ++ pngName 128,
   "  - " ++ pngName 144, "  - " ++ pngName 152, "  - " ++ pngName 192,
   "  - " ++ pngName 384, "  - " ++ pngName 512, "  - favicon.ico"]

/-- The font the glyph drawing call of an icon actually used. -/
def glyphFont (i : Icon) : Option Font :=
  match i.ops.head? with
  | some (DrawOp.text _ _ _ _ f) => some f
  | _ => none

/-- Helper: a run from an empty working directory in an environment with
no injected failures evaluates to the nine files and the success output. -/
theorem gen_noFail (env : Env)
    (hm : env.mkdirFails = none)
    (hr : ∀ s, env.renderFails s = none)
    (hs : ∀ p, env.saveFails p = none) :
    generate_all_icons env ⟨emptyFS, []⟩ =
      ({ fs := ⟨["icons"], filesList env.fontEnv⟩, out := successOut }, none) := by
  simp +decide [generate_all_icons, genLoop, renderIcon, saveFile, makedirs, ICON_SIZES,
        hm, hr, hs, setFile, filesList, successOut, emptyFS, pngName]

/-- Helper: a second run, started from the filesystem the first run left
behind, skips directory creation (the guard sees the directory exists, so
makedirs is never called and no mkdir hypothesis is needed), overwrites
each of the nine files in place, and succeeds with the same output. -/
theorem gen_noFail_again (env : Env)
    (hr : ∀ s, env.renderFails s = none)
    (hs : ∀ p, env.saveFails p = none) :
    generate_all_icons env ⟨⟨["icons"], filesList env.fontEnv⟩, []⟩ =
      ({ fs := ⟨["icons"], filesList env.fontEnv⟩, out := successOut }, none) := by
  simp +decide [generate_all_icons, genLoop, renderIcon, saveFile, makedirs, ICON_SIZES,
        hr, hs, setFile, filesList, successOut, pngName]

/-- C2: for every size > 0, create_icon returns an RGB image of exactly
size by size pixels, filled with background color 0077b5, and the glyph
point size it requests from the font lookups equals floor(size * 0.4),
stated as the rational floor of size times two fifths. -/
theorem c2_create_icon_shape_background_fontsize (fe : FontEnv) (size : Nat)
    (h : 0 < size) :
    (create_icon fe size).mode = "RGB" ∧
    (create_icon fe size).width = size ∧
    (create_icon fe size).height = size ∧
    (create_icon fe size).background = "#0077b5" ∧
    (create_icon fe size).fontRequest = Nat.floor ((size : ℚ) * (2 / 5)) := by
  refine ⟨rfl, rfl, rfl, rfl, ?_⟩
  show 2 * size / 5 = Nat.floor ((size : ℚ) * (2 / 5))
  rw [show ((size : ℚ) * (2 / 5)) = ((2 * size : ℕ) : ℚ) / ((5 : ℕ) : ℚ) by push_cast; ring]
  rw [Nat.floor_div_nat, Nat.floor_natCast]

/-- Witness for C2 at size 72. -/
theorem c2_witness :
    (create_icon sampleFontEnv 72).mode = "RGB" ∧
    (create_icon sampleFontEnv 72).width = 72 ∧
    (create_icon sampleFontEnv 72).height = 72 ∧
    (create_icon sampleFontEnv 72).background = "#0077b5" ∧
    (create_icon sampleFontEnv 72).fontRequest = Nat.floor ((72 : ℚ) * (2 / 5)) :=
  c2_create_icon_shape_background_fontsize sampleFontEnv 72 (by decide)

/-- C3: for every size > 0, the border is the last drawing call, after
the glyph: the trace is exactly a text call followed by a rectangle
outline from (0, 0) to (size - 1, size - 1) in color 005582 with
thickness max 1 (size / 64); in particular thickness 8 at size 512 and
thickness 1 at size 72. -/
theorem c3_border_last_rectangle_thickness (fe : FontEnv) (size : Nat)
    (h : 0 < size) :
    (∃ x y f, (create_icon fe size).ops =
       [DrawOp.text x y "📝" "white" f,
        DrawOp.rectangle 0 0 ((size : Int) - 1) ((size : Int) - 1) "#005582"
          (max 1 (size / 64))]) ∧
    (create_icon fe 512).ops.getLast? =
      some (DrawOp.rectangle 0 0 511 511 "#005582" 8) ∧
    (create_icon fe 72).ops.getLast? =
      some (DrawOp.rectangle 0 0 71 71 "#005582" 1) :=
  ⟨⟨_, _, _, rfl⟩, rfl, rfl⟩

/-- Witness for C3 at size 96. -/
theorem c3_witness :
    (∃ x y f, (create_icon sampleFontEnv 96).ops =
       [DrawOp.text x y "📝" "white" f,
        DrawOp.rectangle 0 0 ((96 : Int) - 1) ((96 : Int) - 1) "#005582"
          (max 1 (96 / 64))]) ∧
    (create_icon sampleFontEnv 512).ops.getLast? =
      some (DrawOp.rectangle 0 0 511 511 "#005582" 8) ∧
    (create_icon sampleFontEnv 72).ops.getLast? =
      some (DrawOp.rectangle 0 0 71 71 "#005582" 1) :=
  c3_border_last_rectangle_thickness sampleFontEnv 96 (by decide)

/-- C4: for every size > 0, the glyph is drawn in white at
x = (size - textWidth) floordiv 2 and
y = (size - textHeight) floordiv 2 - bboxTop, where (left, top, right,
bottom) is the measured bounding box of the glyph under the selected
font, textWidth = right - left and textHeight = bottom - top; Python
floor division on integers is Int.fdiv. -/
theorem c4_glyph_centered_position (fe : FontEnv) (size : Nat) (h : 0 < size)
    (a b c d : Int)
    (hbb : fe.textbbox (selectFont fe (2 * size / 5)) "📝" = (a, b, c, d)) :
    (create_icon fe size).ops.head? =
      some (DrawOp.text (Int.fdiv ((size : Int) - (c - a)) 2)
        (Int.fdiv ((size : Int) - (d - b)) 2 - b)
        "📝" "white" (selectFont fe (2 * size / 5))) := by
  simp [create_icon, hbb]

/-- Witness for C4 at size 72 in the sample environment, whose bounding
box for any text is (0, 2, 20, 24). -/
theorem c4_witness :
    (create_icon sampleFontEnv 72).ops.head? =
      some (DrawOp.text (Int.fdiv ((72 : Int) - (20 - 0)) 2)
        (Int.fdiv ((72 : Int) - (24 - 2)) 2 - 2)
        "📝" "white" (selectFont sampleFontEnv (2 * 72 / 5))) :=
  c4_glyph_centered_position sampleFontEnv 72 (by decide) 0 2 20 24 rfl

/-- A sample environment in which only the second, system-path font
lookup succeeds. -/
def onlySystemFontEnv : FontEnv :=
  { arialTtf := fun _ => none
    systemArial := fun n => some ⟨"/System/Library/Fonts/Arial.ttf", n⟩
    defaultFont := ⟨"load_default", 10⟩
    textbbox := fun _ _ => (0, 2, 20, 24) }

/-- C6: the font fallback chain never raises: the first named font is
used when its lookup succeeds; when it fails the second named path is
used when that lookup succeeds; when both named lookups fail the
built-in default font is used; and in every case create_icon still
completes with a size by size image. -/
theorem c6_font_fallback_never_raises (fe : FontEnv) (n : Nat) :
    (∀ f, fe.arialTtf n = some f → selectFont fe n = f) ∧
    (fe.arialTtf n = none → ∀ f, fe.systemArial n = some f → selectFont fe n = f) ∧
    (fe.arialTtf n = none → fe.systemArial n = none →
      selectFont fe n = fe.defaultFont) ∧
    (∀ size, (create_icon fe size).width = size ∧ (create_icon fe size).height = size) := by
  refine ⟨?_, ?_, ?_, fun size => ⟨rfl, rfl⟩⟩
  · intro f hf; simp [selectFont, hf]
  · intro h1 f hf; simp [selectFont, h1, hf]
  · intro h1 h2; simp [selectFont, h1, h2]

/-- Witness for C6: each tier of the chain exercised at point size 28. -/
theorem c6_witness :
    selectFont sampleFontEnv 28 = ⟨"arial.ttf", 28⟩ ∧
    selectFont onlySystemFontEnv 28 = ⟨"/System/Library/Fonts/Arial.ttf", 28⟩ ∧
    selectFont noNamedFontEnv 28 = noNamedFontEnv.defaultFont ∧
    (create_icon noNamedFontEnv 72).width = 72 :=
  ⟨(c6_font_fallback_never_raises sampleFontEnv 28).1 ⟨"arial.ttf", 28⟩ rfl,
   (c6_font_fallback_never_raises onlySystemFontEnv 28).2.1 rfl
     ⟨"/System/Library/Fonts/Arial.ttf", 28⟩ rfl,
   (c6_font_fallback_never_raises noNamedFontEnv 28).2.2.1 rfl rfl,
   ((c6_font_fallback_never_raises noNamedFontEnv 28).2.2.2 72).1⟩

/-- C10: the except clauses are bare, so a named-font attempt that fails
for ANY reason (modelled as a none result, covering a missing font as
well as an invalid point size such as the 0 obtained for sizes 1 and 2)
falls through to the next tier: when both named lookups fail the glyph
is drawn with the default font and create_icon still returns a size by
size image; and for sizes 1 and 2 the requested point size is indeed 0. -/
theorem c10_bare_except_falls_through (fe : FontEnv) (size : Nat) (h : 0 < size)
    (h1 : fe.arialTtf (2 * size / 5) = none)
    (h2 : fe.systemArial (2 * size / 5) = none) :
    (create_icon fe size).width = size ∧
    (create_icon fe size).height = size ∧
    glyphFont (create_icon fe size) = some fe.defaultFont ∧
    ((size = 1 ∨ size = 2) → 2 * size / 5 = 0) := by
  refine ⟨rfl, rfl, ?_, ?_⟩
  · simp [glyphFont, create_icon, selectFont, h1, h2]
  · rintro (rfl | rfl) <;> rfl

/-- Witness for C10 at size 1, where the requested point size is 0. -/
theorem c10_witness :
    (create_icon noNamedFontEnv 1).width = 1 ∧
    (create_icon noNamedFontEnv 1).height = 1 ∧
    glyphFont (create_icon noNamedFontEnv 1) = some noNamedFontEnv.defaultFont ∧
    ((1 = 1 ∨ 1 = 2) → 2 * 1 / 5 = 0) :=
  c10_bare_except_falls_through noNamedFontEnv 1 (by decide) rfl rfl

/-- C5: the claim says a missing imaging library is detected at the
outermost scope, an install instruction is printed, and zero files are
written. In the code the `from PIL import ...` statement at line 8 runs
at module level, outside the try block of the main guard (lines 77-88),
so when Pillow is absent the ImportError escapes the script uncaught:
zero files are written as claimed, but the handler that would print the
install instruction is unreachable for this failure and nothing is
printed to stdout. This theorem evaluates the model at that failing
environment: the outcome is an uncaught ImportError with an empty
filesystem and an empty stdout. -/
theorem c5_missing_pil_import_uncaught :
    runScript noPilEnv emptyFS =
      Outcome.uncaughtExc ⟨ExcKind.importError, "No module named PIL"⟩ ⟨emptyFS, []⟩ := rfl

/-- C1: after a successful run from an empty working directory, exactly
the files icons/icon-SxS.png for the eight sizes, written in ascending
size order in PNG format, plus favicon.ico rendered by create_icon 32
and saved in ICO format, are on disk: nine files and no others. -/
theorem c1_successful_run_exact_nine_files (env : Env)
    (hm : env.mkdirFails = none)
    (hr : ∀ s, env.renderFails s = none)
    (hs : ∀ p, env.saveFails p = none) :
    (generate_all_icons env ⟨emptyFS, []⟩).2 = none ∧
    (generate_all_icons env ⟨emptyFS, []⟩).1.fs.files =
      [(pngName 72, ⟨create_icon env.fontEnv 72, "PNG"⟩),
       (pngName 96, ⟨create_icon env.fontEnv 96, "PNG"⟩),
       (pngName 128, ⟨create_icon env.fontEnv 128, "PNG"⟩),
       (pngName 144, ⟨create_icon env.fontEnv 144, "PNG"⟩),
       (pngName 152, ⟨create_icon env.fontEnv 152, "PNG"⟩),
       (pngName 192, ⟨create_icon env.fontEnv 192, "PNG"⟩),
       (pngName 384, ⟨create_icon env.fontEnv 384, "PNG"⟩),
       (pngName 512, ⟨create_icon env.fontEnv 512, "PNG"⟩),
       ("favicon.ico", ⟨create_icon env.fontEnv 32, "ICO"⟩)] ∧
    (generate_all_icons env ⟨emptyFS, []⟩).1.fs.files.length = 9 := by
  rw [gen_noFail env hm hr hs]
  exact ⟨rfl, rfl, rfl⟩

/-- Witness for C1 in the sample environment. -/
theorem c1_witness :
    (generate_all_icons sampleEnv ⟨emptyFS, []⟩).2 = none ∧
    (generate_all_icons sampleEnv ⟨emptyFS, []⟩).1.fs.files =
      [(pngName 72, ⟨create_icon sampleEnv.fontEnv 72, "PNG"⟩),
       (pngName 96, ⟨create_icon sampleEnv.fontEnv 96, "PNG"⟩),
       (pngName 128, ⟨create_icon sampleEnv.fontEnv 128, "PNG"⟩),
       (pngName 144, ⟨create_icon sampleEnv.fontEnv 144, "PNG"⟩),
       (pngName 152, ⟨create_icon sampleEnv.fontEnv 152, "PNG"⟩),
       (pngName 192, ⟨create_icon sampleEnv.fontEnv 192, "PNG"⟩),
       (pngName 384, ⟨create_icon sampleEnv.fontEnv 384, "PNG"⟩),
       (pngName 512, ⟨create_icon sampleEnv.fontEnv 512, "PNG"⟩),
       ("favicon.ico", ⟨create_icon sampleEnv.fontEnv 32, "ICO"⟩)] ∧
    (generate_all_icons sampleEnv ⟨emptyFS, []⟩).1.fs.files.length = 9 :=
  c1_successful_run_exact_nine_files sampleEnv rfl (fun _ => rfl) (fun _ => rfl)

/-- C7: fail-fast error handling. A render failure at a size aborts the
loop before touching the state and before any later size is processed; a
save failure does the same; a directory-creation failure aborts before
any size is processed; and any generation failure of kind Exception
propagates to the single top-level handler, which appends the message of
the error and the three alternative web-based icon-generator services to
the output. -/
theorem c7_failfast_single_report :
    (∀ env size rest st m, env.renderFails size = some m →
       genLoop env (size :: rest) st = (st, some ⟨ExcKind.otherError, m⟩)) ∧
    (∀ env size rest st m, env.renderFails size = none →
       env.saveFails (pngName size) = some m →
       genLoop env (size :: rest) st = (st, some ⟨ExcKind.otherError, m⟩)) ∧
    (∀ env fs0 m, env.mkdirFails = some m → "icons" ∉ fs0.dirs →
       generate_all_icons env ⟨fs0, []⟩ = (⟨fs0, []⟩, some ⟨ExcKind.otherError, m⟩)) ∧
    (∀ env fs0 st m, generate_all_icons env ⟨fs0, []⟩ = (st, some ⟨ExcKind.otherError, m⟩) →
       runMain env fs0 = { st with out := st.out ++
         ["❌ Error generating icons: " ++ m,
          "", "Alternative: Use online icon generators like:",
          "  - https://realfavicongenerator.net/",
          "  - https://www.favicon-generator.org/",
          "  - https://favicon.io/"] }) := by
  refine ⟨?_, ?_, ?_, ?_⟩
  · intro env size rest st m h
    simp [genLoop, renderIcon, h]
  · intro env size rest st m h1 h2
    simp [genLoop, renderIcon, saveFile, h1, h2]
  · intro env fs0 m h hmem
    simp [generate_all_icons, makedirs, h, hmem]
  · intro env fs0 st m h
    simp [runMain, h]

/-- An environment whose render of size 128 raises. -/
def failRenderEnv : Env :=
  { sampleEnv with renderFails := fun s => if s = 128 then some "render failed" else none }

/-- An environment whose save of the 128 PNG raises. -/
def failSaveEnv : Env :=
  { sampleEnv with saveFails := fun p => if p = pngName 128 then some "disk full" else none }

/-- An environment whose directory creation raises. -/
def failMkdirEnv : Env :=
  { sampleEnv with mkdirFails := some "permission denied" }

/-- Witness for C7: a render failure and a save failure at size 128 each
abort with the remaining sizes untouched, a mkdir failure aborts the
whole run, and the top level reports that failure with the three
alternative services. -/
theorem c7_witness :
    genLoop failRenderEnv [128, 144] ⟨emptyFS, []⟩ =
      (⟨emptyFS, []⟩, some ⟨ExcKind.otherError, "render failed"⟩) ∧
    genLoop failSaveEnv [128, 144] ⟨emptyFS, []⟩ =
      (⟨emptyFS, []⟩, some ⟨ExcKind.otherError, "disk full"⟩) ∧
    generate_all_icons failMkdirEnv ⟨emptyFS, []⟩ =
      (⟨emptyFS, []⟩, some ⟨ExcKind.otherError, "permission denied"⟩) ∧
    runMain failMkdirEnv emptyFS = { fs := emptyFS, out :=
      ["❌ Error generating icons: " ++ "permission denied",
       "", "Alternative: Use online icon generators like:",
       "  - https://realfavicongenerator.net/",
       "  - https://www.favicon-generator.org/",
       "  - https://favicon.io/"] } :=
  ⟨c7_failfast_single_report.1 failRenderEnv 128 [144] ⟨emptyFS, []⟩ "render failed" rfl,
   c7_failfast_single_report.2.1 failSaveEnv 128 [144] ⟨emptyFS, []⟩ "disk full" rfl rfl,
   c7_failfast_single_report.2.2.1 failMkdirEnv emptyFS "permission denied" rfl
     (by simp [emptyFS]),
   c7_failfast_single_report.2.2.2 failMkdirEnv emptyFS ⟨emptyFS, []⟩ "permission denied"
     (c7_failfast_single_report.2.2.1 failMkdirEnv emptyFS "permission denied" rfl
       (by simp [emptyFS]))⟩

/-- C8: re-running is idempotent on the produced file set: the first run
from an empty working directory succeeds, the second run started on the
filesystem the first left behind also succeeds (directory creation
raises nothing because the guard sees the icons directory already
exists), and it overwrites each of the nine files in place, leaving
exactly the same file list and directory list. -/
theorem c8_rerun_idempotent (env : Env)
    (hm : env.mkdirFails = none)
    (hr : ∀ s, env.renderFails s = none)
    (hs : ∀ p, env.saveFails p = none) :
    (generate_all_icons env ⟨emptyFS, []⟩).2 = none ∧
    (generate_all_icons env ⟨(generate_all_icons env ⟨emptyFS, []⟩).1.fs, []⟩).2 = none ∧
    (generate_all_icons env ⟨(generate_all_icons env ⟨emptyFS, []⟩).1.fs, []⟩).1.fs.files =
      (generate_all_icons env ⟨emptyFS, []⟩).1.fs.files ∧
    (generate_all_icons env ⟨(generate_all_icons env ⟨emptyFS, []⟩).1.fs, []⟩).1.fs.dirs =
      (generate_all_icons env ⟨emptyFS, []⟩).1.fs.dirs ∧
    (generate_all_icons env ⟨emptyFS, []⟩).1.fs.files.length = 9 := by
  rw [gen_noFail env hm hr hs]
  rw [gen_noFail_again env hr hs]
  refine ⟨rfl, rfl, rfl, rfl, rfl⟩

/-- Witness for C8 in the sample environment. -/
theorem c8_witness :
    (generate_all_icons sampleEnv ⟨emptyFS, []⟩).2 = none ∧
    (generate_all_icons sampleEnv ⟨(generate_all_icons sampleEnv ⟨emptyFS, []⟩).1.fs, []⟩).2 = none ∧
    (generate_all_icons sampleEnv ⟨(generate_all_icons sampleEnv ⟨emptyFS, []⟩).1.fs, []⟩).1.fs.files =
      (generate_all_icons sampleEnv ⟨emptyFS, []⟩).1.fs.files ∧
    (generate_all_icons sampleEnv ⟨(generate_all_icons sampleEnv ⟨emptyFS, []⟩).1.fs, []⟩).1.fs.dirs =
      (generate_all_icons sampleEnv ⟨emptyFS, []⟩).1.fs.dirs ∧
    (generate_all_icons sampleEnv ⟨emptyFS, []⟩).1.fs.files.length = 9 :=
  c8_rerun_idempotent sampleEnv rfl (fun _ => rfl) (fun _ => rfl)

/-- C9: rendering is deterministic: two successful runs in environments
that agree on the font collaborator (same fallback tier outcomes, same
bounding-box measurements) produce identical image contents for every
written file, regardless of any other difference between the
environments. -/
theorem c9_deterministic_outputs (env1 env2 : Env)
    (hfe : env1.fontEnv = env2.fontEnv)
    (hm1 : env1.mkdirFails = none)
    (hr1 : ∀ s, env1.renderFails s = none)
    (hs1 : ∀ p, env1.saveFails p = none)
    (hm2 : env2.mkdirFails = none)
    (hr2 : ∀ s, env2.renderFails s = none)
    (hs2 : ∀ p, env2.saveFails p = none) :
    (generate_all_icons env1 ⟨emptyFS, []⟩).1.fs.files =
      (generate_all_icons env2 ⟨emptyFS, []⟩).1.fs.files := by
  rw [gen_noFail env1 hm1 hr1 hs1, gen_noFail env2 hm2 hr2 hs2]
  simp [hfe]

/-- Witness for C9: two runs in the sample environment. -/
theorem c9_witness :
    (generate_all_icons sampleEnv ⟨emptyFS, []⟩).1.fs.files =
      (generate_all_icons sampleEnv ⟨emptyFS, []⟩).1.fs.files :=
  c9_deterministic_outputs sampleEnv sampleEnv rfl rfl (fun _ => rfl) (fun _ => rfl)
    rfl (fun _ => rfl) (fun _ => rfl)
